import Mathlib

/-!
Shallow embedding of `src/tmsu/cli/mount.go` (package `cli` of TMSU).

The file embeds the four functions of that source file — `mountExec`,
`listMounts`, `mountDefault` and `mountExplicit` — as pure Lean functions.
Results of calls to external collaborators (`os.Stat`, `exec.Cmd.StderrPipe`,
`exec.Cmd.Start`, `syscall.Wait4`, the read from the stderr pipe, and
`vfs.GetMountTable`) are supplied through an environment record `Env`:
each field holds the value the corresponding call returns in a given run.
Besides its result, each embedded function yields a trace of the externally
visible events it performs (stat queries, pipe opening, process start, sleep,
poll, pipe read), which the temporal claims are stated over.
-/

namespace TMSU

/-- Go `os.FileInfo` as used by the source: only `IsDir()` is consulted. -/
structure FileInfo where
  isDir : Bool
deriving DecidableEq, Repr

/-- A non-nil Go error returned by `os.Stat`.  `notExists` records whether
`os.IsNotExist` holds of it (true for ENOENT, i.e. the path is absent;
false for other failures such as permission or I/O errors). -/
structure StatError where
  msg : String
  notExists : Bool
deriving DecidableEq, Repr

/-- The pair `(FileInfo, error)` returned by Go's `os.Stat`:
`info = none` models a nil `FileInfo`, `err = none` a nil error.
The Go standard library guarantees exactly one of the two is non-nil
(`goStatContract` below); the record itself does not bake that in, so the
source's `stat == nil` branch can be translated literally. -/
structure StatRet where
  info : Option FileInfo
  err : Option StatError
deriving DecidableEq, Repr

/-- The contract of Go's `os.Stat`: it returns a non-nil `FileInfo` exactly
when it returns a nil error. -/
def goStatContract (r : StatRet) : Prop :=
  r.info.isSome ↔ r.err.isNone

/-- The errors `mountExplicit`, `mountDefault` and `listMounts` can return,
one constructor per `fmt.Errorf` site of the source, carrying the data
interpolated into the message. -/
inductive Err
  /-- `"%v: could not stat: %v"` (stat returned a non-nil error). -/
  | statFailed (path : String) (msg : String)
  /-- `"%v: mount point does not exist."` (stat returned nil info, nil error). -/
  | mountPointNotFound (path : String)
  /-- `"%v: mount point is not a directory."` -/
  | notADirectory (path : String)
  /-- `"%v: database does not exist."` — the source passes no argument for
  the `%v` verb, so the rendered message holds a missing-argument marker. -/
  | databaseNotFound
  /-- `"could not open standard error pipe: %v"` -/
  | stderrPipeFailed (msg : String)
  /-- `"could not start daemon: %v"` -/
  | startFailed (msg : String)
  /-- `"could not check daemon status: %v"` (`syscall.Wait4` errored). -/
  | pollFailed (msg : String)
  /-- `"could not read from error pipe: %v"` -/
  | pipeReadFailed (msg : String)
  /-- `"virtual filesystem mount failed: %v"` with the diagnostic text read
  from the child's stderr. -/
  | mountFailed (diagnostic : String)
  /-- `"could not get mount table: %v"` (from `listMounts`). -/
  | getMountTableFailed (msg : String)
deriving DecidableEq, Repr

/-- The errors `mountExec` returns: each wraps a downstream error with the
paths the operation concerned, plus the argument-count error. -/
inductive CliError
  /-- `"could not list mounts: %v"` -/
  | couldNotListMounts (e : Err)
  /-- `"could not mount database at '%v': %v"` -/
  | couldNotMountDefault (mountPath : String) (e : Err)
  /-- `"could not mount database '%v' at '%v': %v"` -/
  | couldNotMountExplicit (databasePath : String) (mountPath : String) (e : Err)
  /-- `"Too many arguments."` -/
  | tooManyArguments
deriving DecidableEq, Repr

/-- Externally visible events of a run, in program order. -/
inductive Event
  /-- A call `os.Stat(path)`. -/
  | statCall (path : String)
  /-- `daemon.StderrPipe()` — opened before the child is started. -/
  | openStderrPipe
  /-- `daemon.Start()` — the attempt to spawn the child with the given
  executable and argument vector. -/
  | start (exe : String) (args : List String)
  /-- `time.Sleep` of the given number of nanoseconds. -/
  | sleep (ns : Nat)
  /-- `syscall.Wait4`; the flag records whether `WNOHANG` (non-blocking)
  was passed. -/
  | poll (nonblocking : Bool)
  /-- `errorPipe.Read(buffer)` with the 1024-byte buffer. -/
  | readPipe
  /-- `vfs.GetMountTable()`. -/
  | getMountTable
  /-- `log.Printf("'%v' at '%v'", ...)` for one mount record. -/
  | printMount (databasePath : String) (mountPath : String)
deriving DecidableEq, Repr

/-- One record of the external mount table (`vfs.Mount`). -/
structure MountRecord where
  databasePath : String
  mountPath : String
deriving DecidableEq, Repr

deriving instance DecidableEq for Except

/-- The results the external collaborators return during one run.
`statMount` and `statDb` are what `os.Stat` returns for the mount point and
the database path respectively; the remaining fields are the results of the
other external calls, used only if control reaches them. -/
structure Env where
  /-- Result of `os.Stat(mountPath)`. -/
  statMount : StatRet
  /-- Result of `os.Stat(databasePath)`. -/
  statDb : StatRet
  /-- `os.Args[0]`, the currently running binary. -/
  argv0 : String
  /-- Error of `daemon.StderrPipe()`, if any. -/
  stderrPipeErr : Option String
  /-- Error of `daemon.Start()`, if any. -/
  startErr : Option String
  /-- Error of `syscall.Wait4`, if any. -/
  wait4Err : Option String
  /-- Whether the reported wait status satisfies `Exited()`. -/
  waitExited : Bool
  /-- The reported `ExitStatus()`. -/
  waitExitStatus : Int
  /-- Error of `errorPipe.Read`, if any. -/
  pipeReadErr : Option String
  /-- The bytes available on the stderr pipe at read time (the child's
  diagnostic output), as characters. -/
  stderrContent : List Char
  /-- `database.Path`.  Modelled from the spec: the `tmsu/storage/database`
  package is not under `src/`; the spec calls it "the process-wide default
  database location", an opaque path value. -/
  defaultDatabasePath : String
  /-- Result of `vfs.GetMountTable()`. -/
  mountTable : Except String (List MountRecord)
deriving DecidableEq, Repr

/-- Embedding of `mountExplicit(databasePath, mountPath string, allowOther
bool) error` (mount.go lines 111–177), returning the error (or `none` for
a nil error) together with the trace of external events.

Line-by-line: stat the mount point (err → `statFailed`; nil info →
`mountPointNotFound`; not a directory → `notADirectory`); stat the database
path (err → `statFailed`; nil info → `databaseNotFound`); build
`args = ["vfs", databasePath, mountPath]`, appending `"--allow-other"` when
`allowOther`; create the command for `os.Args[0]`; open the stderr pipe
(err → `stderrPipeFailed`); start the daemon (err → `startFailed`); sleep
`HALF_SECOND = 500000000` nanoseconds; `Wait4` with `WNOHANG`
(err → `pollFailed`); if the status shows an exit with non-zero status,
read up to 1024 bytes from the pipe (err → `pipeReadFailed`) and fail with
`mountFailed` carrying `string(buffer[0:count])`; otherwise return nil. -/
def mountExplicit (env : Env) (databasePath mountPath : String) (allowOther : Bool) :
    Option Err × List Event :=
  let tr₁ := [Event.statCall mountPath]
  match env.statMount.err with
  | some e => (some (.statFailed mountPath e.msg), tr₁)
  | none =>
  match env.statMount.info with
  | none => (some (.mountPointNotFound mountPath), tr₁)
  | some stat =>
  if !stat.isDir then
    (some (.notADirectory mountPath), tr₁)
  else
  let tr₂ := tr₁ ++ [Event.statCall databasePath]
  match env.statDb.err with
  | some e => (some (.statFailed databasePath e.msg), tr₂)
  | none =>
  match env.statDb.info with
  | none => (some .databaseNotFound, tr₂)
  | some _ =>
  let args₀ := ["vfs", databasePath, mountPath]
  let args := if allowOther then args₀ ++ ["--allow-other"] else args₀
  let tr₃ := tr₂ ++ [Event.openStderrPipe]
  match env.stderrPipeErr with
  | some m => (some (.stderrPipeFailed m), tr₃)
  | none =>
  let tr₄ := tr₃ ++ [Event.start env.argv0 args]
  match env.startErr with
  | some m => (some (.startFailed m), tr₄)
  | none =>
  let tr₅ := tr₄ ++ [Event.sleep 500000000, Event.poll true]
  match env.wait4Err with
  | some m => (some (.pollFailed m), tr₅)
  | none =>
  if env.waitExited then
    if env.waitExitStatus ≠ 0 then
      let tr₆ := tr₅ ++ [Event.readPipe]
      match env.pipeReadErr with
      | some m => (some (.pipeReadFailed m), tr₆)
      | none =>
        let count := min env.stderrContent.length 1024
        (some (.mountFailed (String.mk (env.stderrContent.take count))), tr₆)
    else
      (none, tr₅)
  else
    (none, tr₅)

/-- Embedding of `mountDefault(mountPath string, allowOther bool) error`
(mount.go lines 103–109): call `mountExplicit(database.Path, mountPath,
allowOther)`; return its error if non-nil, else nil. -/
def mountDefault (env : Env) (mountPath : String) (allowOther : Bool) :
    Option Err × List Event :=
  let r := mountExplicit env env.defaultDatabasePath mountPath allowOther
  match r.1 with
  | some e => (some e, r.2)
  | none => (none, r.2)

/-- Embedding of `listMounts() error` (mount.go lines 84–101): query the
mount table (err → `getMountTableFailed`); otherwise print each record and
return nil (an empty table is printed as nothing, not an error). -/
def listMounts (env : Env) : Option Err × List Event :=
  match env.mountTable with
  | .error m => (some (.getMountTableFailed m), [Event.getMountTable])
  | .ok mt =>
      (none, Event.getMountTable ::
        mt.map (fun r => Event.printMount r.databasePath r.mountPath))

/-- Embedding of `mountExec(options Options, args []string) error`
(mount.go lines 51–82): switch on `len(args)` — 0: `listMounts`, wrapping
its error; 1: `mountDefault(args[0], allowOther)`, wrapping its error with
the mount path; 2: `mountExplicit(args[0], args[1], allowOther)`, wrapping
its error with both paths; otherwise: `"Too many arguments."`.
`allowOther` stands for `options.HasOption("--allow-other")`. -/
def mountExec (env : Env) (allowOther : Bool) (args : List String) :
    Option CliError × List Event :=
  match args with
  | [] =>
      let r := listMounts env
      (r.1.map .couldNotListMounts, r.2)
  | [mountPath] =>
      let r := mountDefault env mountPath allowOther
      (r.1.map (.couldNotMountDefault mountPath), r.2)
  | [databasePath, mountPath] =>
      let r := mountExplicit env databasePath mountPath allowOther
      (r.1.map (.couldNotMountExplicit databasePath mountPath), r.2)
  | _ => (some .tooManyArguments, [])

/-- The condition under which `mountExplicit`'s mount-point validation
passes: `os.Stat` returned no error and an info describing a directory. -/
def mountPointOk (r : StatRet) : Bool :=
  r.err.isNone && (match r.info with
    | some stat => stat.isDir
    | none => false)

/-- Recognizes the `poll` event, for counting polls in a trace. -/
def isPollEvent : Event → Bool
  | .poll _ => true
  | _ => false

/-- A run in which every external call succeeds: both paths stat as existing
(the mount point a directory), the pipe opens, the child starts and is still
running at poll time, and the mount table is empty. -/
def envOk : Env :=
  { statMount := { info := some { isDir := true }, err := none }
    statDb := { info := some { isDir := false }, err := none }
    argv0 := "/usr/bin/tmsu"
    stderrPipeErr := none
    startErr := none
    wait4Err := none
    waitExited := false
    waitExitStatus := 0
    pipeReadErr := none
    stderrContent := []
    defaultDatabasePath := "/home/user/.tmsu/default.db"
    mountTable := Except.ok [] }

/-- A run in which the mount point does not exist: `os.Stat(mountPath)`
returns a nil `FileInfo` and a non-nil error for which `os.IsNotExist`
holds — what Go actually returns for an absent path. -/
def envNoMountPoint : Env :=
  { envOk with
    statMount := { info := none
                   err := some { msg := "no such file or directory", notExists := true } } }

/-- A run in which the mount point exists but is a regular file. -/
def envNotDir : Env :=
  { envOk with statMount := { info := some { isDir := false }, err := none } }

/-- A run in which the child exited with status 1 within the grace interval
after writing "mount point busy" to its error stream. -/
def envBusy : Env :=
  { envOk with
    waitExited := true
    waitExitStatus := 1
    stderrContent := "mount point busy".toList }

/-- A run in which the child exited with status 1 within the grace interval
having written nothing to its error stream, and the read of the pipe
returns zero bytes without error. -/
def envEmptyDiag : Env :=
  { envOk with waitExited := true, waitExitStatus := 1 }

/-- A run in which `syscall.Wait4` itself errors. -/
def envPollErr : Env :=
  { envOk with wait4Err := some "no child processes" }

/-- If `mountExplicit` fails with the `pipeReadFailed` error, the read from
the error pipe itself returned that error. -/
theorem mountExplicit_pipeReadFailed_inv (env : Env) (databasePath mountPath : String)
    (allowOther : Bool) (m : String)
    (h : (mountExplicit env databasePath mountPath allowOther).1
        = some (.pipeReadFailed m)) :
    env.pipeReadErr = some m := by
  unfold mountExplicit at h
  repeat' split at h
  all_goals simp_all

/-- Claim C1, behaviour at the failing input: for a mount point that does
not exist, `os.Stat` returns a non-nil error satisfying `os.IsNotExist`
with a nil `FileInfo`, so `mountExplicit` takes the `err != nil` branch and
returns the `statFailed` error of the `"could not stat"` site — not the
`mountPointNotFound` error that renders as `"mount point does not exist."`,
which the spec's `NotFound` kind corresponds to.  The `stat == nil` branch
that produces `mountPointNotFound` is unreachable, because `os.Stat` never
returns a nil `FileInfo` together with a nil error. -/
theorem claim_C1_missing_path_yields_statFailed :
    (mountExplicit envNoMountPoint "/home/user/.tmsu/default.db" "/mnt/tags" false).1
        = some (.statFailed "/mnt/tags" "no such file or directory") ∧
    (mountExplicit envNoMountPoint "/home/user/.tmsu/default.db" "/mnt/tags" false).1
        ≠ some (.mountPointNotFound "/mnt/tags") := by
  exact ⟨rfl, by decide⟩

/-- Claim C2: when the poll shows a non-zero exit, a read that returns zero
bytes with a nil error is not a failure: the diagnostic is empty and the
operation fails with `mountFailed ""`; the `pipeReadFailed` error occurs
exactly when the read itself returned an error. -/
theorem claim_C2_zero_byte_read_is_empty_diagnostic (env : Env)
    (databasePath mountPath : String) (allowOther : Bool) (bdir : Bool)
    (hmp : env.statMount = { info := some { isDir := true }, err := none })
    (hdb : env.statDb = { info := some { isDir := bdir }, err := none })
    (hpipe : env.stderrPipeErr = none)
    (hstart : env.startErr = none)
    (hwait : env.wait4Err = none)
    (hexited : env.waitExited = true)
    (hstatus : env.waitExitStatus ≠ 0)
    (hread : env.pipeReadErr = none)
    (hempty : env.stderrContent = []) :
    (mountExplicit env databasePath mountPath allowOther).1 = some (.mountFailed "") ∧
    (∀ env' : Env, ∀ m : String,
      (mountExplicit env' databasePath mountPath allowOther).1 = some (.pipeReadFailed m) →
      env'.pipeReadErr = some m) := by
  constructor
  · simp [mountExplicit, hmp, hdb, hpipe, hstart, hwait, hexited, hstatus, hread, hempty]
  · intro env' m h
    exact mountExplicit_pipeReadFailed_inv env' databasePath mountPath allowOther m h

/-- Witness for claim C2 at a concrete run: the child exited with status 1
and wrote nothing; the result is `mountFailed ""`. -/
theorem claim_C2_witness :
    (mountExplicit envEmptyDiag "/d" "/m" false).1 = some (.mountFailed "") :=
  (claim_C2_zero_byte_read_is_empty_diagnostic envEmptyDiag "/d" "/m" false false
    rfl rfl rfl rfl rfl rfl (by decide) rfl rfl).1

/-- Claim C10: `mountDefault` is exactly delegation to `mountExplicit` at
the default database path — same result, same events, nothing added. -/
theorem claim_C10_mountDefault_delegates (env : Env) (mountPath : String)
    (allowOther : Bool) :
    mountDefault env mountPath allowOther
      = mountExplicit env env.defaultDatabasePath mountPath allowOther := by
  rcases h : mountExplicit env env.defaultDatabasePath mountPath allowOther with ⟨res, tr⟩
  cases res <;> simp [mountDefault, h]

/-- The trace of a `mountExplicit` run is one of six prefixes of the full
event sequence: it stops after the first stat, after the second stat, after
opening the pipe, after the start attempt, after the sleep-and-poll, or
after the pipe read. -/
theorem mountExplicit_trace_cases (env : Env) (databasePath mountPath : String)
    (allowOther : Bool) :
    (mountExplicit env databasePath mountPath allowOther).2 = [Event.statCall mountPath] ∨
    (mountExplicit env databasePath mountPath allowOther).2
      = [Event.statCall mountPath, Event.statCall databasePath] ∨
    (mountExplicit env databasePath mountPath allowOther).2
      = [Event.statCall mountPath, Event.statCall databasePath, Event.openStderrPipe] ∨
    (mountExplicit env databasePath mountPath allowOther).2
      = [Event.statCall mountPath, Event.statCall databasePath, Event.openStderrPipe,
         Event.start env.argv0 (if allowOther
           then ["vfs", databasePath, mountPath, "--allow-other"]
           else ["vfs", databasePath, mountPath])] ∨
    (mountExplicit env databasePath mountPath allowOther).2
      = [Event.statCall mountPath, Event.statCall databasePath, Event.openStderrPipe,
         Event.start env.argv0 (if allowOther
           then ["vfs", databasePath, mountPath, "--allow-other"]
           else ["vfs", databasePath, mountPath]),
         Event.sleep 500000000, Event.poll true] ∨
    (mountExplicit env databasePath mountPath allowOther).2
      = [Event.statCall mountPath, Event.statCall databasePath, Event.openStderrPipe,
         Event.start env.argv0 (if allowOther
           then ["vfs", databasePath, mountPath, "--allow-other"]
           else ["vfs", databasePath, mountPath]),
         Event.sleep 500000000, Event.poll true, Event.readPipe] := by
  unfold mountExplicit
  repeat' split
  all_goals simp

/-- When the mount-point validation fails (stat error, nil info, or not a
directory), `mountExplicit` returns an error and its trace is the single
stat call: nothing further — in particular no start — happens. -/
theorem mountExplicit_invalid_mount_point (env : Env) (databasePath mountPath : String)
    (allowOther : Bool) (h : mountPointOk env.statMount = false) :
    Option.isSome (mountExplicit env databasePath mountPath allowOther).1 = true ∧
    (mountExplicit env databasePath mountPath allowOther).2
      = [Event.statCall mountPath] := by
  unfold mountPointOk at h
  unfold mountExplicit
  repeat' split
  all_goals simp_all

/-- Claim C3: the two stat checks run, in order, before any start attempt —
whenever a start event occurs the trace begins with exactly
stat(mountPath), stat(databasePath), pipe-open, start — and when the
mount-point validation fails the operation returns an error with no start
event ever emitted. -/
theorem claim_C3_validation_before_spawn (env : Env) (databasePath mountPath : String)
    (allowOther : Bool) (h : mountPointOk env.statMount = false) :
    Option.isSome (mountExplicit env databasePath mountPath allowOther).1 = true ∧
    (∀ e a, Event.start e a ∉ (mountExplicit env databasePath mountPath allowOther).2) ∧
    (∀ env' : Env, ∀ e a,
      Event.start e a ∈ (mountExplicit env' databasePath mountPath allowOther).2 →
      ∃ rest, (mountExplicit env' databasePath mountPath allowOther).2
        = [Event.statCall mountPath, Event.statCall databasePath, Event.openStderrPipe,
           Event.start e a] ++ rest) := by
  obtain ⟨hres, htr⟩ := mountExplicit_invalid_mount_point env databasePath mountPath allowOther h
  refine ⟨hres, ?_, ?_⟩
  · intro e a hmem
    rw [htr] at hmem
    simp at hmem
  · intro env' e a hmem
    rcases mountExplicit_trace_cases env' databasePath mountPath allowOther with
       h1 | h2 | h3 | h4 | h5 | h6
    · rw [h1] at hmem; simp at hmem
    · rw [h2] at hmem; simp at hmem
    · rw [h3] at hmem; simp at hmem
    · rw [h4] at hmem ⊢
      simp at hmem
      obtain ⟨he, ha⟩ := hmem
      subst he; subst ha
      exact ⟨[], rfl⟩
    · rw [h5] at hmem ⊢
      simp at hmem
      obtain ⟨he, ha⟩ := hmem
      subst he; subst ha
      exact ⟨[Event.sleep 500000000, Event.poll true], rfl⟩
    · rw [h6] at hmem ⊢
      simp at hmem
      obtain ⟨he, ha⟩ := hmem
      subst he; subst ha
      exact ⟨[Event.sleep 500000000, Event.poll true, Event.readPipe], rfl⟩

/-- Witness for claim C3 at a concrete run with an absent mount point: the
operation fails and no start event of any shape — here probed at a
concrete one — is in the trace. -/
theorem claim_C3_witness :
    mountPointOk envNoMountPoint.statMount = false ∧
    Option.isSome (mountExplicit envNoMountPoint "/d" "/m" false).1 = true ∧
    Event.start "/usr/bin/tmsu" ["vfs", "/d", "/m"]
      ∉ (mountExplicit envNoMountPoint "/d" "/m" false).2 :=
  ⟨rfl,
   (claim_C3_validation_before_spawn envNoMountPoint "/d" "/m" false rfl).1,
   (claim_C3_validation_before_spawn envNoMountPoint "/d" "/m" false rfl).2.1
     "/usr/bin/tmsu" ["vfs", "/d", "/m"]⟩

/-- Claim C5: a mount point that exists but is not a directory is rejected
with the `notADirectory` error, and the database path's file type is never
consulted: runs differing only in the `FileInfo` the database stat
returned produce identical results and traces. -/
theorem claim_C5_not_a_directory (env : Env) (databasePath mountPath : String)
    (allowOther : Bool)
    (hmp : env.statMount = { info := some { isDir := false }, err := none }) :
    (mountExplicit env databasePath mountPath allowOther).1
        = some (.notADirectory mountPath) ∧
    (∀ env' : Env, ∀ f g : FileInfo,
      mountExplicit { env' with statDb := { info := some f, err := none } }
          databasePath mountPath allowOther
        = mountExplicit { env' with statDb := { info := some g, err := none } }
          databasePath mountPath allowOther) := by
  constructor
  · simp [mountExplicit, hmp]
  · intro env' f g
    dsimp only [mountExplicit]

/-- Witness for claim C5 at a concrete run whose mount point is a regular
file. -/
theorem claim_C5_witness :
    (mountExplicit envNotDir "/d" "/m" false).1 = some (.notADirectory "/m") :=
  (claim_C5_not_a_directory envNotDir "/d" "/m" false rfl).1

/-- Claim C9: once both stats pass and the pipe opens, a start attempt is
made whose executable is `os.Args[0]` and whose argument vector is exactly
`["vfs", databasePath, mountPath]` with `"--allow-other"` appended last
exactly when `allowOther` is set; and every start event in any run of
`mountExplicit` has that executable and argument vector. -/
theorem claim_C9_child_argument_vector (env : Env) (databasePath mountPath : String)
    (allowOther : Bool) (bdir : Bool)
    (hmp : env.statMount = { info := some { isDir := true }, err := none })
    (hdb : env.statDb = { info := some { isDir := bdir }, err := none })
    (hpipe : env.stderrPipeErr = none) :
    Event.start env.argv0 (["vfs", databasePath, mountPath]
        ++ (if allowOther then ["--allow-other"] else []))
      ∈ (mountExplicit env databasePath mountPath allowOther).2 ∧
    (∀ e a, Event.start e a ∈ (mountExplicit env databasePath mountPath allowOther).2 →
      e = env.argv0 ∧
      a = ["vfs", databasePath, mountPath]
        ++ (if allowOther then ["--allow-other"] else [])) := by
  constructor
  · cases allowOther <;>
      · unfold mountExplicit
        simp [hmp, hdb, hpipe]
        repeat' split
        all_goals simp
  · intro e a hmem
    rcases mountExplicit_trace_cases env databasePath mountPath allowOther with
       h1 | h2 | h3 | h4 | h5 | h6
    · rw [h1] at hmem; simp at hmem
    · rw [h2] at hmem; simp at hmem
    · rw [h3] at hmem; simp at hmem
    · rw [h4] at hmem
      simp at hmem
      cases allowOther <;> simp_all
    · rw [h5] at hmem
      simp at hmem
      cases allowOther <;> simp_all
    · rw [h6] at hmem
      simp at hmem
      cases allowOther <;> simp_all

/-- Witness for claim C9 at a concrete run with `allowOther` set: the flag
token is the last argument. -/
theorem claim_C9_witness :
    Event.start envOk.argv0 (["vfs", "/d", "/m"] ++ ["--allow-other"])
      ∈ (mountExplicit envOk "/d" "/m" true).2 :=
  (claim_C9_child_argument_vector envOk "/d" "/m" true false rfl rfl rfl).1

/-- Claim C4: `mountExec` dispatches solely on the count of positional
arguments — zero invokes listing, one mounts at the given path with the
default database, two mounts the explicit database path at the mount path,
each wrapped with the concerned paths — and three or more arguments fail
with the argument-count error, with an empty trace and a result that does
not depend on the environment at all (no validator, supervisor or registry
is reached). -/
theorem claim_C4_router_dispatch (env : Env) (allowOther : Bool) (args : List String) :
    (args = [] → mountExec env allowOther args
      = ((listMounts env).1.map .couldNotListMounts, (listMounts env).2)) ∧
    (∀ mountPath, args = [mountPath] → mountExec env allowOther args
      = ((mountDefault env mountPath allowOther).1.map (.couldNotMountDefault mountPath),
         (mountDefault env mountPath allowOther).2)) ∧
    (∀ databasePath mountPath, args = [databasePath, mountPath] →
      mountExec env allowOther args
      = ((mountExplicit env databasePath mountPath allowOther).1.map
           (.couldNotMountExplicit databasePath mountPath),
         (mountExplicit env databasePath mountPath allowOther).2)) ∧
    (2 < args.length → ∀ env' : Env, ∀ allowOther' : Bool,
      mountExec env' allowOther' args = (some .tooManyArguments, [])) := by
  refine ⟨?_, ?_, ?_, ?_⟩
  · intro h; subst h; rfl
  · intro mountPath h; subst h; rfl
  · intro databasePath mountPath h; subst h; rfl
  · intro h env' allowOther'
    rcases args with _ | ⟨a, _ | ⟨b, _ | ⟨c, rest⟩⟩⟩ <;> simp_all [mountExec]

/-- Witness for claim C4 at concrete argument lists: three arguments are
rejected outright, zero arguments invoke listing. -/
theorem claim_C4_witness :
    mountExec envOk false ["/a", "/b", "/c"] = (some CliError.tooManyArguments, []) ∧
    mountExec envOk false []
      = ((listMounts envOk).1.map CliError.couldNotListMounts, (listMounts envOk).2) :=
  ⟨(claim_C4_router_dispatch envOk false ["/a", "/b", "/c"]).2.2.2 (by decide) envOk false,
   (claim_C4_router_dispatch envOk false []).1 rfl⟩

/-- Any `mountFailed` diagnostic `mountExplicit` reports has at most 1024
characters: it is read through the fixed 1024-byte buffer. -/
theorem mountExplicit_mountFailed_bound (env : Env) (databasePath mountPath : String)
    (allowOther : Bool) (d : String)
    (h : (mountExplicit env databasePath mountPath allowOther).1
        = some (.mountFailed d)) :
    d.length ≤ 1024 := by
  unfold mountExplicit at h
  repeat' split at h
  all_goals try simp_all
  all_goals
    subst h
    show (List.take (min env.stderrContent.length 1024) env.stderrContent).length ≤ 1024
    simp only [List.length_take]
    omega

/-- Claim C6: when the child exits non-zero within the grace interval
having written "mount point busy" to its error stream, the operation fails
with a diagnostic that is exactly "mount point busy"; and no diagnostic
ever exceeds the 1024-byte capture buffer. -/
theorem claim_C6_busy_diagnostic (env : Env) (databasePath mountPath : String)
    (allowOther : Bool) (bdir : Bool)
    (hmp : env.statMount = { info := some { isDir := true }, err := none })
    (hdb : env.statDb = { info := some { isDir := bdir }, err := none })
    (hpipe : env.stderrPipeErr = none)
    (hstart : env.startErr = none)
    (hwait : env.wait4Err = none)
    (hexited : env.waitExited = true)
    (hstatus : env.waitExitStatus ≠ 0)
    (hread : env.pipeReadErr = none)
    (hcontent : env.stderrContent = "mount point busy".toList) :
    (mountExplicit env databasePath mountPath allowOther).1
        = some (.mountFailed "mount point busy") ∧
    (∀ env' : Env, ∀ d : String,
      (mountExplicit env' databasePath mountPath allowOther).1 = some (.mountFailed d) →
      d.length ≤ 1024) := by
  constructor
  · simp [mountExplicit, hmp, hdb, hpipe, hstart, hwait, hexited, hstatus, hread, hcontent]
  · intro env' d h
    exact mountExplicit_mountFailed_bound env' databasePath mountPath allowOther d h

/-- Witness for claim C6 at a concrete run whose child exited with status 1
after writing "mount point busy". -/
theorem claim_C6_witness :
    (mountExplicit envBusy "/d" "/m" false).1
      = some (.mountFailed "mount point busy") :=
  (claim_C6_busy_diagnostic envBusy "/d" "/m" false false
    rfl rfl rfl rfl rfl rfl (by decide) rfl rfl).1

/-- Claim C7: if at poll time the child has not exited, or has exited with
status zero, the operation reports success (a nil error), never reads the
error stream, and does nothing after the poll — the poll is the last event
of the run. -/
theorem claim_C7_alive_or_ok_exit_success (env : Env) (databasePath mountPath : String)
    (allowOther : Bool) (bdir : Bool)
    (hmp : env.statMount = { info := some { isDir := true }, err := none })
    (hdb : env.statDb = { info := some { isDir := bdir }, err := none })
    (hpipe : env.stderrPipeErr = none)
    (hstart : env.startErr = none)
    (hwait : env.wait4Err = none)
    (h : env.waitExited = false ∨ env.waitExitStatus = 0) :
    (mountExplicit env databasePath mountPath allowOther).1 = none ∧
    Event.readPipe ∉ (mountExplicit env databasePath mountPath allowOther).2 ∧
    (mountExplicit env databasePath mountPath allowOther).2.getLast?
      = some (Event.poll true) := by
  rcases h with h | h
  · simp [mountExplicit, hmp, hdb, hpipe, hstart, hwait, h]
  · cases hwe : env.waitExited <;>
      simp [mountExplicit, hmp, hdb, hpipe, hstart, hwait, hwe, h]

/-- Witness for claim C7 at a concrete run whose child is still alive at
poll time. -/
theorem claim_C7_witness :
    (mountExplicit envOk "/d" "/m" false).1 = none :=
  (claim_C7_alive_or_ok_exit_success envOk "/d" "/m" false false
    rfl rfl rfl rfl rfl (Or.inl rfl)).1

/-- Every sleep event of a `mountExplicit` run sleeps 500000000
nanoseconds. -/
theorem mountExplicit_sleep_value (env : Env) (databasePath mountPath : String)
    (allowOther : Bool) (n : Nat)
    (h : Event.sleep n ∈ (mountExplicit env databasePath mountPath allowOther).2) :
    n = 500000000 := by
  rcases mountExplicit_trace_cases env databasePath mountPath allowOther with
     h1 | h2 | h3 | h4 | h5 | h6 <;> simp_all

/-- Every poll event of a `mountExplicit` run is non-blocking (`WNOHANG`). -/
theorem mountExplicit_poll_nonblocking (env : Env) (databasePath mountPath : String)
    (allowOther : Bool) (b : Bool)
    (h : Event.poll b ∈ (mountExplicit env databasePath mountPath allowOther).2) :
    b = true := by
  rcases mountExplicit_trace_cases env databasePath mountPath allowOther with
     h1 | h2 | h3 | h4 | h5 | h6 <;> simp_all

/-- A `mountExplicit` run polls at most once. -/
theorem mountExplicit_poll_count (env : Env) (databasePath mountPath : String)
    (allowOther : Bool) :
    List.countP isPollEvent (mountExplicit env databasePath mountPath allowOther).2 ≤ 1 := by
  rcases mountExplicit_trace_cases env databasePath mountPath allowOther with
     h | h | h | h | h | h <;>
    simp [h, List.countP_cons, isPollEvent]

/-- Whenever a `mountExplicit` run polls, the poll immediately follows the
500000000-nanosecond sleep. -/
theorem mountExplicit_sleep_before_poll (env : Env) (databasePath mountPath : String)
    (allowOther : Bool) (b : Bool)
    (h : Event.poll b ∈ (mountExplicit env databasePath mountPath allowOther).2) :
    ∃ pre rest, (mountExplicit env databasePath mountPath allowOther).2
      = pre ++ [Event.sleep 500000000, Event.poll true] ++ rest := by
  rcases mountExplicit_trace_cases env databasePath mountPath allowOther with
     h1 | h2 | h3 | h4 | h5 | h6
  · rw [h1] at h; simp at h
  · rw [h2] at h; simp at h
  · rw [h3] at h; simp at h
  · rw [h4] at h; simp at h
  · exact ⟨[Event.statCall mountPath, Event.statCall databasePath, Event.openStderrPipe,
            Event.start env.argv0 (if allowOther
              then ["vfs", databasePath, mountPath, "--allow-other"]
              else ["vfs", databasePath, mountPath])], [],
          by rw [h5]; simp⟩
  · exact ⟨[Event.statCall mountPath, Event.statCall databasePath, Event.openStderrPipe,
            Event.start env.argv0 (if allowOther
              then ["vfs", databasePath, mountPath, "--allow-other"]
              else ["vfs", databasePath, mountPath])], [Event.readPipe],
          by rw [h6]; simp⟩

/-- If `mountExplicit` fails with the `pollFailed` error, `syscall.Wait4`
itself returned that error. -/
theorem mountExplicit_pollFailed_inv (env : Env) (databasePath mountPath : String)
    (allowOther : Bool) (m : String)
    (h : (mountExplicit env databasePath mountPath allowOther).1
        = some (.pollFailed m)) :
    env.wait4Err = some m := by
  unfold mountExplicit at h
  repeat' split at h
  all_goals simp_all

/-- If a run reaches the poll and `syscall.Wait4` errors, the run fails
with the `pollFailed` error carrying that message. -/
theorem mountExplicit_poll_wait4Err (env : Env) (databasePath mountPath : String)
    (allowOther : Bool) (m : String)
    (hm : env.wait4Err = some m)
    (hpoll : Event.poll true ∈ (mountExplicit env databasePath mountPath allowOther).2) :
    (mountExplicit env databasePath mountPath allowOther).1
      = some (.pollFailed m) := by
  unfold mountExplicit at hpoll ⊢
  repeat' split at hpoll
  all_goals simp_all

/-- Claim C8: between start and classification the run sleeps exactly
500 milliseconds (500 × 10⁶ nanoseconds), then performs at most one poll,
always non-blocking, immediately after the sleep; the `pollFailed` error is
reported exactly when `syscall.Wait4` itself errors at that poll. -/
theorem claim_C8_sleep_then_single_nonblocking_poll (env : Env)
    (databasePath mountPath : String) (allowOther : Bool) :
    (∀ n, Event.sleep n ∈ (mountExplicit env databasePath mountPath allowOther).2 →
      n = 500 * 1000000) ∧
    (∀ b, Event.poll b ∈ (mountExplicit env databasePath mountPath allowOther).2 →
      b = true) ∧
    List.countP isPollEvent (mountExplicit env databasePath mountPath allowOther).2 ≤ 1 ∧
    (∀ b, Event.poll b ∈ (mountExplicit env databasePath mountPath allowOther).2 →
      ∃ pre rest, (mountExplicit env databasePath mountPath allowOther).2
        = pre ++ [Event.sleep (500 * 1000000), Event.poll true] ++ rest) ∧
    (∀ m, env.wait4Err = some m →
      Event.poll true ∈ (mountExplicit env databasePath mountPath allowOther).2 →
      (mountExplicit env databasePath mountPath allowOther).1 = some (.pollFailed m)) ∧
    (∀ m, (mountExplicit env databasePath mountPath allowOther).1
        = some (.pollFailed m) → env.wait4Err = some m) := by
  refine ⟨?_, ?_, mountExplicit_poll_count env databasePath mountPath allowOther, ?_, ?_, ?_⟩
  · intro n hn
    have := mountExplicit_sleep_value env databasePath mountPath allowOther n hn
    omega
  · exact mountExplicit_poll_nonblocking env databasePath mountPath allowOther
  · intro b hb
    have := mountExplicit_sleep_before_poll env databasePath mountPath allowOther b hb
    simpa using this
  · intro m hm hpoll
    exact mountExplicit_poll_wait4Err env databasePath mountPath allowOther m hm hpoll
  · intro m hm
    exact mountExplicit_pollFailed_inv env databasePath mountPath allowOther m hm

/-- Witness for claim C8 at concrete runs: at most one poll in a clean run,
and a run whose `Wait4` errors fails with `pollFailed`. -/
theorem claim_C8_witness :
    List.countP isPollEvent (mountExplicit envOk "/d" "/m" false).2 ≤ 1 ∧
    (mountExplicit envPollErr "/d" "/m" false).1
      = some (.pollFailed "no child processes") :=
  ⟨(claim_C8_sleep_then_single_nonblocking_poll envOk "/d" "/m" false).2.2.1,
   (claim_C8_sleep_then_single_nonblocking_poll envPollErr "/d" "/m" false).2.2.2.2.1
     "no child processes" rfl (by decide)⟩

end TMSU
